import Mathlib

/-!
Verification development for the `cassandra-connector` repository
(`src/cassandra_connector/CassandraConnector.py`).

The Python source is shallowly embedded below:

* Python strings are Lean `String`; the Python string methods the source
  uses (`str.split`, `str.join`, `str.replace`, truthiness of optional
  strings, `a or b`) are re-implemented as executable Lean functions over
  the character list of a string.
* Python dictionaries holding the connector configuration become Lean
  structures whose fields are `Option String` (`none` models an absent key
  or a `None` value).
* Side effects (HTTP requests, filesystem reads/writes, driver calls) are
  made explicit: functions take the relevant parts of the outside world as
  arguments and report the network/filesystem actions they perform as
  event lists in their result.
-/

/-- Index of the first occurrence of `sep` (a non-empty character list)
inside `l`, as Python `str.find` would report it. -/
def findSubChars (sep : List Char) : List Char → Option Nat
  | [] => none
  | c :: cs =>
    if sep.isPrefixOf (c :: cs) then some 0
    else (findSubChars sep cs).map (fun i => i + 1)

/-- Fuel-driven worker for `pySplit`: split `l` at each occurrence of `sep`.
The fuel is an upper bound on the number of split points; callers pass
`l.length + 1`, which suffices for any non-empty `sep`. -/
def splitChars (sep : List Char) : Nat → List Char → List (List Char)
  | 0, l => [l]
  | fuel + 1, l =>
    match findSubChars sep l with
    | none => [l]
    | some i => l.take i :: splitChars sep fuel (l.drop (i + sep.length))

/-- Model of Python `s.split(sep)` for a non-empty separator. -/
def pySplit (s sep : String) : List String :=
  (splitChars sep.data (s.data.length + 1) s.data).map String.mk

/-- Model of Python `sep.join(xs)`. -/
def pyJoin (sep : String) : List String → String
  | [] => ""
  | [x] => x
  | x :: y :: xs => x ++ sep ++ pyJoin sep (y :: xs)

/-- Fuel-driven worker for `pyReplace`. -/
def replaceChars (old new : List Char) : Nat → List Char → List Char
  | 0, l => l
  | fuel + 1, l =>
    match findSubChars old l with
    | none => l
    | some i => l.take i ++ new ++ replaceChars old new fuel (l.drop (i + old.length))

/-- Model of Python `s.replace(old, new)` for a non-empty `old`. -/
def pyReplace (s old new : String) : String :=
  String.mk (replaceChars old.data new.data (s.data.length + 1) s.data)

/-- Python truthiness of an optional string: an absent key, a `None` value
and the empty string are all falsy. -/
def truthy : Option String → Bool
  | none => false
  | some s => s ≠ ""

/-- Python `a or b` where `a` is an optional string and `b` a string:
yields `a`'s value when it is truthy, otherwise `b`. -/
def pyOr (a : Option String) (b : String) : String :=
  match a with
  | none => b
  | some s => if s = "" then b else s

/-- Model of `urllib.parse.urlparse(url).netloc` for URLs of the usual
`scheme://authority/path` shape: the text after the first `://` up to the
next `/`, `?` or `#`; empty when the URL has no `://`. -/
def urlparseNetloc (url : String) : String :=
  match findSubChars "://".data url.data with
  | none => ""
  | some i =>
    String.mk ((url.data.drop (i + 3)).takeWhile
      (fun c => !(c == '/' || c == '?' || c == '#')))

example : pySplit "a-b-c" "-" = ["a", "b", "c"] := by decide
example : pySplit "abc" "-" = ["abc"] := by decide
example : pyJoin "-" ["a", "b"] = "a-b" := by decide
example : urlparseNetloc "https://h-1.apps.x.com/v2?q=1" = "h-1.apps.x.com" := by decide
example : pyReplace "db/{x}/u" "{x}" "id7" = "db/id7/u" := by decide

/-!
## Data model: Astra connection arguments and external-world inputs

`AstraArgs` embeds the nested `astra` dictionary of a Cloud configuration
(`token`, `endpoint`, `datacenterID`, `regionName`, `scb`, and the optional
`bundleUrlTemplate` consulted by `_get_secure_connect_bundle_url`). Each
field is `Option String`: `none` models a missing key or a `None` value.
-/

structure AstraArgs where
  token : Option String := none
  endpoint : Option String := none
  datacenterID : Option String := none
  regionName : Option String := none
  scb : Option String := none
  bundleUrlTemplate : Option String := none
deriving DecidableEq, Repr

/-- One element of the JSON array returned by the secure-bundle discovery
exchange: an object with `region` and `downloadURL` string fields. -/
structure BundleEntry where
  region : String
  downloadURL : String
deriving DecidableEq, Repr

/-- The `ValueError`s and HTTP errors `CassandraConnector`'s bundle
resolution can raise, as an inductive carrying the data interpolated into
the Python message (see `astraErrorMessage`). -/
inductive AstraError where
  /-- `requests` `raise_for_status` failure for the named URL. -/
  | httpError (url : String)
  /-- `"Failed to get secure bundle URLs."` on an empty discovery response. -/
  | emptyBundleList
  /-- `"Specific bundle for region '...' not found."` -/
  | regionNotFound (region : String)
  /-- `"Astra endpoint or datacenterID must be provided in args."` -/
  | missingEndpointOrDatacenter
deriving DecidableEq, Repr

/-- The exact message text of each error raised by the Python source
(`raise_for_status` messages come from the `requests` library and are
modelled loosely). -/
def astraErrorMessage : AstraError → String
  | .httpError url => "HTTP request failed for " ++ url
  | .emptyBundleList => "Failed to get secure bundle URLs."
  | .regionNotFound region =>
      "Specific bundle for region \x27" ++ region ++ "\x27 not found."
  | .missingEndpointOrDatacenter =>
      "Astra endpoint or datacenterID must be provided in args."

/-- Network actions performed during bundle resolution. -/
inductive NetEvent where
  /-- The authenticated `requests.post` of the discovery exchange. -/
  | discoveryPost (url : String)
  /-- The `requests.get` that downloads the selected bundle. -/
  | bundleGet (url : String)
deriving DecidableEq, Repr

/-- The parts of the outside world `_get_or_download_secure_connect_bundle`
observes: the temporary directory root, the filesystem (existence and
modification time per path), the current clock, and the two HTTP responses
(whether each call passes `raise_for_status`, and the discovery body). -/
structure World where
  tmpdir : String
  fileExists : String → Bool
  fileMtime : String → Int
  now : Int
  postStatusOk : Bool
  discoveryResponse : List BundleEntry
  getStatusOk : Bool

/-- The default `bundleUrlTemplate` of `_get_secure_connect_bundle_url`. -/
def defaultBundleUrlTemplate : String :=
  "https://api.astra.datastax.com/v2/databases/\x7bdatabase_id\x7d/secureBundleURL?all=true"

/-- Embedding of `CassandraConnector._get_secure_connect_bundle_url`.

The HTTP `POST` is modelled by the `postStatusOk`/`data` inputs: the method
builds the URL from the template, performs the `POST` (recorded as a
`NetEvent`), raises on a non-success status, and otherwise selects a
`downloadURL` from the response list `data` exactly as the source does. -/
def get_secure_connect_bundle_url (astra_args : AstraArgs)
    (postStatusOk : Bool) (data : List BundleEntry) :
    Except AstraError String × List NetEvent :=
  let url_template := astra_args.bundleUrlTemplate.getD defaultBundleUrlTemplate
  let url := pyReplace url_template "\x7bdatabase_id\x7d" (astra_args.datacenterID.getD "")
  let result : Except AstraError String :=
    if postStatusOk = false then .error (.httpError url)
    else
      match data with
      | [] => .error .emptyBundleList
      | first :: _ =>
        let download_url := first.downloadURL
        if truthy astra_args.regionName then
          match data.find? (fun bundle => bundle.region == astra_args.regionName.getD "") with
          | some regional_bundle => .ok regional_bundle.downloadURL
          | none => .error (.regionNotFound (astra_args.regionName.getD ""))
        else .ok download_url
  (result, [NetEvent.discoveryPost url])

/-- The dash-separated hostname segments `_get_or_download_secure_connect_bundle`
derives from an endpoint URL: parse the URL, take the netloc, strip the
`.apps.astra.datastax.com` suffix, and split on `-`. -/
def endpointHostnameParts (endpoint : String) : List String :=
  let hostname_without_suffix :=
    (pySplit (urlparseNetloc endpoint) ".apps.astra.datastax.com").headD ""
  pySplit hostname_without_suffix "-"

/-- Embedding of lines 236-248 of `_get_or_download_secure_connect_bundle`
(run when `astra_args['endpoint']` is truthy): parse the endpoint, join the
first five hostname segments as the datacenter id and the rest as the
region, then write `astra_args.get(k) or parsed` into the (caller-shared)
`astra_args` dictionary for both keys. -/
def astra_args_after_endpoint_parse (astra_args : AstraArgs) : AstraArgs :=
  let parts := endpointHostnameParts (astra_args.endpoint.getD "")
  let datacenterID := pyJoin "-" (parts.take 5)
  let regionName := pyJoin "-" (parts.drop 5)
  { astra_args with
      datacenterID := some (pyOr astra_args.datacenterID datacenterID),
      regionName := some (pyOr astra_args.regionName regionName) }

/-- The contents of `astra_args` once the endpoint-parsing step has run:
parsed and updated when the endpoint is truthy, untouched otherwise. -/
def effective_astra_args (astra_args : AstraArgs) : AstraArgs :=
  if truthy astra_args.endpoint then astra_args_after_endpoint_parse astra_args
  else astra_args

/-- Embedding of lines 252-260: the deterministic cache path
`<tmpdir>/cassandra-astra/astra-secure-connect-<datacenterID>[-<regionName>].zip`
computed from the (already updated) `astra_args`. -/
def scb_path_for (tmpdir : String) (astra_args : AstraArgs) : String :=
  let scb_dir := tmpdir ++ "/cassandra-astra"
  let base := "astra-secure-connect-" ++ astra_args.datacenterID.getD ""
  let withRegion :=
    if truthy astra_args.regionName then base ++ "-" ++ astra_args.regionName.getD ""
    else base
  scb_dir ++ "/" ++ (withRegion ++ ".zip")

/-- Result of `_get_or_download_secure_connect_bundle`: the returned path or
raised error, the final contents of the caller-shared `astra_args`
dictionary, and the network/filesystem actions performed. -/
structure BundleResolveOutcome where
  result : Except AstraError String
  astraArgsAfter : AstraArgs
  netEvents : List NetEvent
  wrotePaths : List String
deriving Repr

/-- Embedding of `CassandraConnector._get_or_download_secure_connect_bundle`.

Control flow follows the source: an explicit truthy `scb` is returned at
once; otherwise, when the endpoint is truthy the hostname is parsed into
`datacenterID`/`regionName` (mutating `astra_args`), and when neither the
endpoint nor `datacenterID` is truthy a `ValueError` is raised (the
source's `if/elif` makes these branches disjoint, so checking the error
case first is equivalent). The cache path is then consulted: a file that
exists and is at most 360 days old is returned without network access;
otherwise the discovery exchange runs, the selected URL is downloaded and
the file is (re)written. -/
def get_or_download_secure_connect_bundle (w : World) (astra_args : AstraArgs) :
    BundleResolveOutcome :=
  if truthy astra_args.scb then
    { result := .ok (astra_args.scb.getD ""), astraArgsAfter := astra_args,
      netEvents := [], wrotePaths := [] }
  else if truthy astra_args.endpoint = false ∧ truthy astra_args.datacenterID = false then
    { result := .error .missingEndpointOrDatacenter, astraArgsAfter := astra_args,
      netEvents := [], wrotePaths := [] }
  else
    let args2 := effective_astra_args astra_args
    let scb_path := scb_path_for w.tmpdir args2
    if w.fileExists scb_path = false ∨ w.now - w.fileMtime scb_path > 360 * 24 * 60 * 60 then
      match get_secure_connect_bundle_url args2 w.postStatusOk w.discoveryResponse with
      | (.error e, events) =>
          { result := .error e, astraArgsAfter := args2,
            netEvents := events, wrotePaths := [] }
      | (.ok download_url, events) =>
          let events2 := events ++ [NetEvent.bundleGet download_url]
          if w.getStatusOk = false then
            { result := .error (.httpError download_url), astraArgsAfter := args2,
              netEvents := events2, wrotePaths := [] }
          else
            { result := .ok scb_path, astraArgsAfter := args2,
              netEvents := events2, wrotePaths := [scb_path] }
    else
      { result := .ok scb_path, astraArgsAfter := args2,
        netEvents := [], wrotePaths := [] }

/-!
## Connector session accessor and the connections manager

Driver objects are opaque handles: a `Session` is identified by the order
in which `Cluster.connect()` produced it, and a `Connection` (a realized
`CassandraConnector`) by a construction identity, standing in for Python
object identity.
-/

/-- An opaque driver session handle. -/
structure Session where
  sid : Nat
deriving DecidableEq, Repr

/-- The state of a constructed `CassandraConnector` relevant to its
accessors: the `_cluster` handle (opaque here) and the `_session` created
at construction time. -/
structure ConnectorState where
  clusterId : Nat
  sessionAtInit : Session
deriving DecidableEq, Repr

/-- The body of the `CassandraConnector.session` getter
(`if new: return self._cluster.connect(); return self._session`).
`freshSession` models the session a call to `self._cluster.connect()`
would produce. -/
def sessionGetterBody (c : ConnectorState) (freshSession : Session) (new : Bool) : Session :=
  if new then freshSession else c.sessionAtInit

/-- What an attribute access `connector.session` evaluates to. Because the
getter is decorated with `@property`, attribute access invokes it with
`self` only, so the `new` parameter always keeps its default `False`:
there is no way to pass `new=True` through the property. -/
def sessionAttributeAccess (c : ConnectorState) (freshSession : Session) : Session :=
  sessionGetterBody c freshSession false

/-- A realized connection object (a constructed `CassandraConnector`),
identified by a construction identity modelling Python object identity. -/
structure Connection where
  connId : Nat
deriving DecidableEq, Repr

/-- The manager-visible connection arguments for one key: the `astra`
sub-dictionary when present (a Cloud configuration), and the remaining
top-level keyword arguments, opaque to the manager, as a key-value list
(a Direct configuration). -/
structure ConnectionArgs where
  astra : Option AstraArgs := none
  direct : List (String × String) := []
deriving DecidableEq, Repr

/-- The `ValueError`s `CassandraConnectionsManager.get_connector` raises,
carrying the key interpolated into the message (see `mgrErrorMessage`). -/
inductive MgrError where
  /-- `"Connection for '<key>' could not be initialized."` -/
  | initFailed (key : String)
  /-- `"Connection parameters for '<key>' not configured."` -/
  | notConfigured (key : String)
deriving DecidableEq, Repr

/-- The exact message text of each `ValueError` the manager raises. -/
def mgrErrorMessage : MgrError → String
  | .initFailed key =>
      "Connection for \x27" ++ key ++ "\x27 could not be initialized."
  | .notConfigured key =>
      "Connection parameters for \x27" ++ key ++ "\x27 not configured."

/-- Lookup in a Python dictionary modelled as a key-value list. -/
def alistLookup {α : Type} (l : List (String × α)) (k : String) : Option α :=
  match l with
  | [] => none
  | (k2, v) :: rest => if k2 = k then some v else alistLookup rest k

/-- `d[k] = v` on a Python dictionary modelled as a key-value list:
overwrite the existing binding or append a new one. -/
def alistInsert {α : Type} (l : List (String × α)) (k : String) (v : α) :
    List (String × α) :=
  match l with
  | [] => [(k, v)]
  | (k2, v2) :: rest =>
    if k2 = k then (k2, v) :: rest else (k2, v2) :: alistInsert rest k v

/-- The two dictionaries of `CassandraConnectionsManager`:
`_connection_params` and `_connections`. -/
structure ManagerState where
  connection_params : List (String × ConnectionArgs)
  connections : List (String × Connection)
deriving DecidableEq, Repr

/-- Observable side effects of one `get_connector` call. -/
inductive ManagerEvent where
  /-- Evaluation of `CassandraConnector(**params)` with the given params. -/
  | constructAttempt (params : ConnectionArgs)
deriving DecidableEq, Repr

deriving instance DecidableEq for Except

/-- Result of one `get_connector` call: the returned connection or raised
`ValueError`, the manager state afterwards, and the constructor
invocations performed. -/
structure MgrResult where
  result : Except MgrError Connection
  state : ManagerState
  events : List ManagerEvent
deriving DecidableEq, Repr

/-- Embedding of `CassandraConnectionsManager.get_connector`.

`construct` models the `CassandraConnector(**params)` call, the one
effectful step: it yields the new connection object or the exception the
constructor raised. `connection_args` is the `**connection_args` of the
call; `none` models an empty keyword-argument dictionary, which is falsy
at line 73.

Following the source: a key with a realized connection returns it at once;
otherwise supplied args are stored only when the key has no stored params
yet; if params exist (stored earlier or just now) the constructor runs,
its result is cached and returned, and any constructor exception becomes
`ValueError("Connection for '<key>' could not be initialized.")` — note
the failed `CassandraConnector(**params)` evaluation never assigns into
`self._connections`. With no params at all, the manager raises
`ValueError("Connection parameters for '<key>' not configured.")`. -/
def get_connector (construct : ConnectionArgs → Except String Connection)
    (st : ManagerState) (db_key : String) (connection_args : Option ConnectionArgs) :
    MgrResult :=
  match alistLookup st.connections db_key with
  | some conn => { result := .ok conn, state := st, events := [] }
  | none =>
    let params1 :=
      if (alistLookup st.connection_params db_key).isNone then
        match connection_args with
        | some args => alistInsert st.connection_params db_key args
        | none => st.connection_params
      else st.connection_params
    let st1 : ManagerState := { st with connection_params := params1 }
    match alistLookup params1 db_key with
    | some params =>
      match construct params with
      | .ok conn =>
          { result := .ok conn,
            state := { st1 with connections := alistInsert st1.connections db_key conn },
            events := [.constructAttempt params] }
      | .error _ =>
          { result := .error (.initFailed db_key), state := st1,
            events := [.constructAttempt params] }
    | none =>
      { result := .error (.notConfigured db_key), state := st1, events := [] }

/-- The caller-visible contents of a `ConnectionArgs` value after
`CassandraConnector.__init__` ran on it. The top-level dictionary passed
as `**connection_args` is a fresh dictionary built by the call, so `pop`
at lines 186-187 and the reassignment at line 212 never reach the
caller's objects; the nested `astra` dictionary, however, is shared by
reference and is mutated in place by
`_get_or_download_secure_connect_bundle` (lines 247-248). -/
def connection_args_after_init (w : World) (connection_args : ConnectionArgs) :
    ConnectionArgs :=
  match connection_args.astra with
  | some astra_args =>
      { connection_args with
          astra := some (get_or_download_secure_connect_bundle w astra_args).astraArgsAfter }
  | none => connection_args

/-!
## Helper lemmas
-/

theorem alistLookup_insert_self {α : Type} (l : List (String × α)) (k : String) (v : α) :
    alistLookup (alistInsert l k v) k = some v := by
  induction l with
  | nil => simp [alistInsert, alistLookup]
  | cons hd tl ih =>
    obtain ⟨k2, v2⟩ := hd
    by_cases hk : k2 = k <;> simp [alistInsert, alistLookup, hk, ih]

/-!
## Claims about the connections manager
-/

/-- C1: once `get_connector` has realized a `Connection` for a key, every
later call for that key — with or without additional supplied
configuration — returns that identical connection object, performs no side
effects, and leaves the manager state (in particular the realized entry)
unchanged. -/
theorem get_connector_idempotent_after_realization
    (construct : ConnectionArgs → Except String Connection)
    (st : ManagerState) (db_key : String) (connection_args : Option ConnectionArgs)
    (c : Connection) (h : alistLookup st.connections db_key = some c) :
    get_connector construct st db_key connection_args =
      { result := .ok c, state := st, events := [] } := by
  simp [get_connector, h]

theorem get_connector_idempotent_after_realization_witness :
    alistLookup (ManagerState.mk [] [("k", ⟨7⟩)]).connections "k" = some ⟨7⟩ ∧
    get_connector (fun _ => .ok ⟨1⟩) (ManagerState.mk [] [("k", ⟨7⟩)]) "k"
        (some { direct := [("port", "9042")] }) =
      { result := .ok ⟨7⟩, state := ManagerState.mk [] [("k", ⟨7⟩)], events := [] } :=
  ⟨by decide,
   get_connector_idempotent_after_realization (fun _ => .ok ⟨1⟩)
     (ManagerState.mk [] [("k", ⟨7⟩)]) "k" (some { direct := [("port", "9042")] })
     ⟨7⟩ (by decide)⟩

/-- C9: for a key with no realized connection, no stored configuration and
no configuration supplied in the call, `get_connector` raises the
`ValueError` whose message names the key, and changes nothing. -/
theorem get_connector_unconfigured_key_fails
    (construct : ConnectionArgs → Except String Connection)
    (st : ManagerState) (db_key : String)
    (hconn : alistLookup st.connections db_key = none)
    (hparams : alistLookup st.connection_params db_key = none) :
    get_connector construct st db_key none =
      { result := .error (.notConfigured db_key), state := st, events := [] } ∧
    mgrErrorMessage (.notConfigured db_key) =
      "Connection parameters for \x27" ++ db_key ++ "\x27 not configured." := by
  constructor
  · simp [get_connector, hconn, hparams]
  · rfl

theorem get_connector_unconfigured_key_fails_witness :
    alistLookup (ManagerState.mk [] []).connections "missing" = none ∧
    alistLookup (ManagerState.mk [] []).connection_params "missing" = none ∧
    (get_connector (fun _ => .ok ⟨1⟩) (ManagerState.mk [] []) "missing" none =
      { result := .error (.notConfigured "missing"), state := ManagerState.mk [] [],
        events := [] } ∧
     mgrErrorMessage (.notConfigured "missing") =
      "Connection parameters for \x27missing\x27 not configured.") :=
  ⟨by decide, by decide,
   get_connector_unconfigured_key_fails (fun _ => .ok ⟨1⟩) (ManagerState.mk [] [])
     "missing" (by decide) (by decide)⟩

/-- C10: once a configuration is stored for a key, configuration arguments
supplied in a later `get_connector` call for that key are silently
ignored: the call behaves exactly as a call without arguments, the stored
parameters are never overwritten, and any construction the call performs
uses the stored parameters. -/
theorem get_connector_ignores_args_once_stored
    (construct : ConnectionArgs → Except String Connection)
    (st : ManagerState) (db_key : String) (connection_args : Option ConnectionArgs)
    (p : ConnectionArgs)
    (hstored : alistLookup st.connection_params db_key = some p) :
    get_connector construct st db_key connection_args =
      get_connector construct st db_key none ∧
    (get_connector construct st db_key connection_args).state.connection_params =
      st.connection_params ∧
    (∀ ev ∈ (get_connector construct st db_key connection_args).events,
      ev = ManagerEvent.constructAttempt p) := by
  cases hc : alistLookup st.connections db_key with
  | some c =>
    refine ⟨by simp [get_connector, hc], by simp [get_connector, hc], ?_⟩
    simp [get_connector, hc]
  | none =>
    cases hcp : construct p with
    | ok conn =>
      refine ⟨by simp [get_connector, hc, hstored, hcp], ?_, ?_⟩ <;>
        simp [get_connector, hc, hstored, hcp]
    | error e =>
      refine ⟨by simp [get_connector, hc, hstored, hcp], ?_, ?_⟩ <;>
        simp [get_connector, hc, hstored, hcp]

theorem get_connector_ignores_args_once_stored_witness :
    alistLookup (ManagerState.mk [("k", ConnectionArgs.mk none [("a", "1")])] []).connection_params
        "k" = some (ConnectionArgs.mk none [("a", "1")]) ∧
    (get_connector (fun _ => .ok ⟨1⟩)
        (ManagerState.mk [("k", ConnectionArgs.mk none [("a", "1")])] []) "k"
        (some (ConnectionArgs.mk none [("b", "2")])) =
      get_connector (fun _ => .ok ⟨1⟩)
        (ManagerState.mk [("k", ConnectionArgs.mk none [("a", "1")])] []) "k" none ∧
     (get_connector (fun _ => .ok ⟨1⟩)
        (ManagerState.mk [("k", ConnectionArgs.mk none [("a", "1")])] []) "k"
        (some (ConnectionArgs.mk none [("b", "2")]))).state.connection_params =
      (ManagerState.mk [("k", ConnectionArgs.mk none [("a", "1")])] []).connection_params ∧
     (∀ ev ∈ (get_connector (fun _ => .ok ⟨1⟩)
        (ManagerState.mk [("k", ConnectionArgs.mk none [("a", "1")])] []) "k"
        (some (ConnectionArgs.mk none [("b", "2")]))).events,
       ev = ManagerEvent.constructAttempt (ConnectionArgs.mk none [("a", "1")]))) :=
  ⟨by decide,
   get_connector_ignores_args_once_stored (fun _ => .ok ⟨1⟩)
     (ManagerState.mk [("k", ConnectionArgs.mk none [("a", "1")])] []) "k"
     (some (ConnectionArgs.mk none [("b", "2")])) (ConnectionArgs.mk none [("a", "1")])
     (by decide)⟩

/-- C2: if the `CassandraConnector(**params)` call raises during
`get_connector`, the manager re-raises a `ValueError` naming the key, the
realized-connection cache is left without any entry for that key, the
parameters remain stored, and a later call for the same key runs the
constructor again from scratch on those parameters. -/
theorem get_connector_construction_failure
    (construct : ConnectionArgs → Except String Connection)
    (st : ManagerState) (db_key : String) (connection_args : Option ConnectionArgs)
    (p : ConnectionArgs) (e : String)
    (hconn : alistLookup st.connections db_key = none)
    (heff : alistLookup st.connection_params db_key = some p ∨
        (alistLookup st.connection_params db_key = none ∧ connection_args = some p))
    (hfail : construct p = .error e) :
    (get_connector construct st db_key connection_args).result =
      .error (.initFailed db_key) ∧
    mgrErrorMessage (.initFailed db_key) =
      "Connection for \x27" ++ db_key ++ "\x27 could not be initialized." ∧
    alistLookup (get_connector construct st db_key connection_args).state.connections
      db_key = none ∧
    alistLookup (get_connector construct st db_key connection_args).state.connection_params
      db_key = some p ∧
    (∀ construct2,
      (get_connector construct2
        (get_connector construct st db_key connection_args).state db_key none).events =
        [ManagerEvent.constructAttempt p]) := by
  rcases heff with hstored | ⟨hnone, hargs⟩
  · have hcall : get_connector construct st db_key connection_args =
        { result := .error (.initFailed db_key), state := st,
          events := [.constructAttempt p] } := by
      simp [get_connector, hconn, hstored, hfail]
    rw [hcall]
    refine ⟨rfl, rfl, hconn, hstored, ?_⟩
    intro construct2
    cases h2 : construct2 p <;> simp [get_connector, hconn, hstored, h2]
  · subst hargs
    have hcall : get_connector construct st db_key (some p) =
        { result := .error (.initFailed db_key),
          state := { st with
            connection_params := alistInsert st.connection_params db_key p },
          events := [.constructAttempt p] } := by
      simp [get_connector, hconn, hnone, hfail, alistLookup_insert_self]
    rw [hcall]
    refine ⟨rfl, rfl, hconn, alistLookup_insert_self _ _ _, ?_⟩
    intro construct2
    cases h2 : construct2 p <;>
      simp [get_connector, hconn, hnone, h2, alistLookup_insert_self]

theorem get_connector_construction_failure_witness :
    alistLookup (ManagerState.mk [] []).connections "j" = none ∧
    (fun _ => Except.error "boom" :
        ConnectionArgs → Except String Connection) (ConnectionArgs.mk none [("a", "1")]) =
      .error "boom" ∧
    (get_connector (fun _ => .error "boom") (ManagerState.mk [] []) "j"
        (some (ConnectionArgs.mk none [("a", "1")]))).result =
      .error (.initFailed "j") ∧
    alistLookup (get_connector (fun _ => .error "boom") (ManagerState.mk [] []) "j"
        (some (ConnectionArgs.mk none [("a", "1")]))).state.connections "j" = none ∧
    alistLookup (get_connector (fun _ => .error "boom") (ManagerState.mk [] []) "j"
        (some (ConnectionArgs.mk none [("a", "1")]))).state.connection_params "j" =
      some (ConnectionArgs.mk none [("a", "1")]) ∧
    (get_connector (fun _ => .ok ⟨5⟩)
        (get_connector (fun _ => .error "boom") (ManagerState.mk [] []) "j"
          (some (ConnectionArgs.mk none [("a", "1")]))).state "j" none).events =
      [ManagerEvent.constructAttempt (ConnectionArgs.mk none [("a", "1")])] := by
  have h := get_connector_construction_failure (fun _ => .error "boom")
    (ManagerState.mk [] []) "j" (some (ConnectionArgs.mk none [("a", "1")]))
    (ConnectionArgs.mk none [("a", "1")]) "boom" (by decide)
    (Or.inr ⟨by decide, rfl⟩) (by decide)
  exact ⟨by decide, by decide, h.1, h.2.2.1, h.2.2.2.1, h.2.2.2.2 (fun _ => .ok ⟨5⟩)⟩

/-!
## Claims about the secure-connect-bundle URL discovery
-/

/-- C3: for every discovery response, `_get_secure_connect_bundle_url`
fails with `"Failed to get secure bundle URLs."` on an empty list; with a
truthy `regionName` it selects the entry whose `region` field equals it
exactly, and fails with the region-not-found `ValueError` naming that
region when no entry matches; with no truthy `regionName` it selects the
first entry of the list. -/
theorem get_secure_connect_bundle_url_selection
    (astra_args : AstraArgs) (data : List BundleEntry) :
    (data = [] →
      (get_secure_connect_bundle_url astra_args true data).1 =
        .error .emptyBundleList) ∧
    (∀ r, astra_args.regionName = some r → r ≠ "" →
      (∀ b ∈ data, b.region ≠ r) → data ≠ [] →
      (get_secure_connect_bundle_url astra_args true data).1 =
        .error (.regionNotFound r) ∧
      astraErrorMessage (.regionNotFound r) =
        "Specific bundle for region \x27" ++ r ++ "\x27 not found.") ∧
    (∀ r b, astra_args.regionName = some r → r ≠ "" →
      data.find? (fun entry => entry.region == r) = some b →
      b ∈ data ∧ b.region = r ∧
      (get_secure_connect_bundle_url astra_args true data).1 = .ok b.downloadURL) ∧
    (truthy astra_args.regionName = false →
      ∀ first rest, data = first :: rest →
      (get_secure_connect_bundle_url astra_args true data).1 = .ok first.downloadURL) := by
  refine ⟨?_, ?_, ?_, ?_⟩
  · rintro rfl
    simp [get_secure_connect_bundle_url]
  · intro r hr hne hnomatch hnonempty
    cases data with
    | nil => exact absurd rfl hnonempty
    | cons first rest =>
      refine ⟨?_, rfl⟩
      have hfind : (first :: rest).find? (fun entry => entry.region == r) = none := by
        rw [List.find?_eq_none]
        intro b hb
        simpa using hnomatch b hb
      simp [get_secure_connect_bundle_url, truthy, hr, hne, hfind]
  · intro r b hr hne hfind
    have hmem : b ∈ data := List.mem_of_find?_eq_some hfind
    have hreg : b.region = r := by simpa using List.find?_some hfind
    refine ⟨hmem, hreg, ?_⟩
    cases data with
    | nil => simp at hfind
    | cons first rest =>
      simp [get_secure_connect_bundle_url, truthy, hr, hne, hfind]
  · intro ht first rest hdata
    subst hdata
    simp [get_secure_connect_bundle_url, ht]

theorem get_secure_connect_bundle_url_selection_witness :
    (AstraArgs.mk (some "T") none (some "id1") (some "eu-west-1") none none).regionName =
      some "eu-west-1" ∧
    ([BundleEntry.mk "us-east-1" "u1", BundleEntry.mk "eu-west-1" "u2"]).find?
      (fun entry => entry.region == "eu-west-1") = some (BundleEntry.mk "eu-west-1" "u2") ∧
    (get_secure_connect_bundle_url
      (AstraArgs.mk (some "T") none (some "id1") (some "eu-west-1") none none) true
      [BundleEntry.mk "us-east-1" "u1", BundleEntry.mk "eu-west-1" "u2"]).1 = .ok "u2" := by
  have h := get_secure_connect_bundle_url_selection
    (AstraArgs.mk (some "T") none (some "id1") (some "eu-west-1") none none)
    [BundleEntry.mk "us-east-1" "u1", BundleEntry.mk "eu-west-1" "u2"]
  refine ⟨rfl, by decide, ?_⟩
  exact (h.2.2.1 "eu-west-1" (BundleEntry.mk "eu-west-1" "u2") rfl (by decide)
    (by decide)).2.2

/-!
## Claims about bundle resolution and the connector
-/

/-- A sample Cloud configuration used by concrete witnesses: an endpoint of
the documented Astra form, no explicit datacenter, region or bundle path. -/
def sampleAstraArgs : AstraArgs :=
  { token := some "AstraCS:tok",
    endpoint := some "https://a1-b2-c3-d4-e5-us-east-1.apps.astra.datastax.com" }

/-- A sample world whose cache already holds a fresh bundle file. -/
def freshCacheWorld : World :=
  { tmpdir := "/tmp", fileExists := fun _ => true, fileMtime := fun _ => 1000,
    now := 2000, postStatusOk := true,
    discoveryResponse := [BundleEntry.mk "us-east-1" "https://dl/1"],
    getStatusOk := true }

/-- A sample world with no cached bundle file. -/
def emptyCacheWorld : World :=
  { tmpdir := "/tmp", fileExists := fun _ => false, fileMtime := fun _ => 0,
    now := 2000, postStatusOk := true,
    discoveryResponse := [BundleEntry.mk "us-east-1" "https://dl/1"],
    getStatusOk := true }

/-- The discovery exchange always performs exactly its `POST`, whatever its
outcome. -/
theorem get_secure_connect_bundle_url_events (a : AstraArgs) (ok : Bool)
    (d : List BundleEntry) :
    (get_secure_connect_bundle_url a ok d).2 =
      [NetEvent.discoveryPost (pyReplace (a.bundleUrlTemplate.getD defaultBundleUrlTemplate)
        "\x7bdatabase_id\x7d" (a.datacenterID.getD ""))] := rfl

/-- C6: a Cloud configuration supplying an explicit (non-empty) local
bundle path makes `_get_or_download_secure_connect_bundle` return that
path unchanged, with no network access, no filesystem write, no freshness
check consulted, and no mutation of the configuration. -/
theorem bundle_resolution_explicit_scb_path
    (w : World) (astra_args : AstraArgs) (p : String)
    (hscb : astra_args.scb = some p) (hne : p ≠ "") :
    get_or_download_secure_connect_bundle w astra_args =
      { result := .ok p, astraArgsAfter := astra_args,
        netEvents := [], wrotePaths := [] } := by
  simp [get_or_download_secure_connect_bundle, truthy, hscb, hne]

theorem bundle_resolution_explicit_scb_path_witness :
    (AstraArgs.mk (some "T") none none none (some "/home/u/scb.zip") none).scb =
      some "/home/u/scb.zip" ∧
    get_or_download_secure_connect_bundle emptyCacheWorld
        (AstraArgs.mk (some "T") none none none (some "/home/u/scb.zip") none) =
      { result := .ok "/home/u/scb.zip",
        astraArgsAfter := AstraArgs.mk (some "T") none none none (some "/home/u/scb.zip") none,
        netEvents := [], wrotePaths := [] } :=
  ⟨rfl, bundle_resolution_explicit_scb_path emptyCacheWorld
    (AstraArgs.mk (some "T") none none none (some "/home/u/scb.zip") none)
    "/home/u/scb.zip" rfl (by decide)⟩

/-- Whatever the cache and network do, the caller-visible `astra_args`
after bundle resolution is: unchanged when an explicit bundle path was
supplied, and otherwise the result of the endpoint-parsing step. -/
theorem bundle_resolution_astra_args_after (w : World) (a : AstraArgs) :
    (get_or_download_secure_connect_bundle w a).astraArgsAfter =
      if truthy a.scb = true then a else effective_astra_args a := by
  by_cases h1 : truthy a.scb = true
  · simp [get_or_download_secure_connect_bundle, h1]
  · have h1f : truthy a.scb = false := by
      cases hb : truthy a.scb with
      | true => exact absurd hb h1
      | false => rfl
    by_cases h2 : truthy a.endpoint = false ∧ truthy a.datacenterID = false
    · have he : truthy a.endpoint = false := h2.1
      simp [get_or_download_secure_connect_bundle, h1f, h2, effective_astra_args, he]
    · rcases hgu : get_secure_connect_bundle_url (effective_astra_args a) w.postStatusOk
          w.discoveryResponse with ⟨res, evs⟩
      cases res with
      | error e =>
        simp [get_or_download_secure_connect_bundle, h1f, h2, hgu]
        split <;> rfl
      | ok u =>
        simp [get_or_download_secure_connect_bundle, h1f, h2, hgu]
        split
        · split <;> rfl
        · rfl


/-- C5: with no explicit bundle path, resolution returns the cache path
with no network access and no write exactly when a file exists at the
deterministic cache path whose age is at most 360 days; when the file is
absent or older than 360 days, the discovery exchange is performed and —
when it yields a URL and the download succeeds — the bundle is downloaded
and the file rewritten at that path. -/
theorem bundle_resolution_cache_freshness
    (w : World) (a : AstraArgs)
    (hscb : truthy a.scb = false)
    (hvalid : truthy a.endpoint = true ∨ truthy a.datacenterID = true) :
    (((get_or_download_secure_connect_bundle w a).result =
        .ok (scb_path_for w.tmpdir (effective_astra_args a)) ∧
      (get_or_download_secure_connect_bundle w a).netEvents = [] ∧
      (get_or_download_secure_connect_bundle w a).wrotePaths = []) ↔
      (w.fileExists (scb_path_for w.tmpdir (effective_astra_args a)) = true ∧
       w.now - w.fileMtime (scb_path_for w.tmpdir (effective_astra_args a)) ≤
         360 * 24 * 60 * 60)) ∧
    ((w.fileExists (scb_path_for w.tmpdir (effective_astra_args a)) = false ∨
      w.now - w.fileMtime (scb_path_for w.tmpdir (effective_astra_args a)) >
        360 * 24 * 60 * 60) →
      (∃ u, NetEvent.discoveryPost u ∈
        (get_or_download_secure_connect_bundle w a).netEvents) ∧
      (∀ u, (get_secure_connect_bundle_url (effective_astra_args a) w.postStatusOk
          w.discoveryResponse).1 = .ok u → w.getStatusOk = true →
        NetEvent.bundleGet u ∈ (get_or_download_secure_connect_bundle w a).netEvents ∧
        (get_or_download_secure_connect_bundle w a).wrotePaths =
          [scb_path_for w.tmpdir (effective_astra_args a)] ∧
        (get_or_download_secure_connect_bundle w a).result =
          .ok (scb_path_for w.tmpdir (effective_astra_args a)))) := by
  have hvalid2 : ¬(truthy a.endpoint = false ∧ truthy a.datacenterID = false) := by
    rcases hvalid with h | h <;> simp [h]
  by_cases hcache :
      w.fileExists (scb_path_for w.tmpdir (effective_astra_args a)) = false ∨
      w.now - w.fileMtime (scb_path_for w.tmpdir (effective_astra_args a)) >
        360 * 24 * 60 * 60
  · -- cache miss or stale file: the discovery exchange runs
    rcases hgu : get_secure_connect_bundle_url (effective_astra_args a) w.postStatusOk
        w.discoveryResponse with ⟨res, evs⟩
    have hevs : evs = [NetEvent.discoveryPost
        (pyReplace ((effective_astra_args a).bundleUrlTemplate.getD defaultBundleUrlTemplate)
          "\x7bdatabase_id\x7d" ((effective_astra_args a).datacenterID.getD ""))] := by
      have h := get_secure_connect_bundle_url_events (effective_astra_args a)
        w.postStatusOk w.discoveryResponse
      rw [hgu] at h
      exact h
    have hout : get_or_download_secure_connect_bundle w a =
        match (res, evs) with
        | (.error e, events) =>
            { result := .error e, astraArgsAfter := effective_astra_args a,
              netEvents := events, wrotePaths := [] }
        | (.ok download_url, events) =>
            if w.getStatusOk = false then
              { result := .error (.httpError download_url),
                astraArgsAfter := effective_astra_args a,
                netEvents := events ++ [NetEvent.bundleGet download_url],
                wrotePaths := [] }
            else
              { result := .ok (scb_path_for w.tmpdir (effective_astra_args a)),
                astraArgsAfter := effective_astra_args a,
                netEvents := events ++ [NetEvent.bundleGet download_url],
                wrotePaths := [scb_path_for w.tmpdir (effective_astra_args a)] } := by
      simp only [get_or_download_secure_connect_bundle, hscb, Bool.false_eq_true,
        if_false, hvalid2, if_pos hcache, hgu]
    have hmiss_cond : ¬(w.fileExists (scb_path_for w.tmpdir (effective_astra_args a)) = true ∧
        w.now - w.fileMtime (scb_path_for w.tmpdir (effective_astra_args a)) ≤
          360 * 24 * 60 * 60) := by
      rintro ⟨hex, hfresh⟩
      rcases hcache with h | h
      · rw [hex] at h
        exact Bool.noConfusion h
      · exact absurd hfresh (not_le.mpr h)
    cases res with
    | error e =>
      refine ⟨⟨?_, fun h => absurd h hmiss_cond⟩, fun _ =>
        ⟨⟨pyReplace ((effective_astra_args a).bundleUrlTemplate.getD
            defaultBundleUrlTemplate) "\x7bdatabase_id\x7d"
            ((effective_astra_args a).datacenterID.getD ""), ?_⟩, fun u hu => ?_⟩⟩
      · rw [hout]
        rintro ⟨habs, -⟩
        exact absurd habs (by simp)
      · rw [hout, hevs]
        exact List.mem_singleton.mpr rfl
      · exact absurd hu (by simp)
    | ok u0 =>
      refine ⟨⟨?_, fun h => absurd h hmiss_cond⟩, fun _ => ⟨?_, fun u hu hget => ?_⟩⟩
      · rw [hout]
        rintro ⟨-, hnet, -⟩
        by_cases hget : w.getStatusOk = false <;>
          simp [hget, hevs] at hnet
      · refine ⟨pyReplace ((effective_astra_args a).bundleUrlTemplate.getD
            defaultBundleUrlTemplate) "\x7bdatabase_id\x7d"
            ((effective_astra_args a).datacenterID.getD ""), ?_⟩
        rw [hout]
        by_cases hget : w.getStatusOk = false <;>
          simp [hget, hevs]
      · have hu0 : u0 = u := by simpa using hu
        subst hu0
        rw [hout]
        simp [hget, hevs]
  · -- fresh cached file: returned with no network access
    have hout : get_or_download_secure_connect_bundle w a =
        { result := .ok (scb_path_for w.tmpdir (effective_astra_args a)),
          astraArgsAfter := effective_astra_args a,
          netEvents := [], wrotePaths := [] } := by
      simp only [get_or_download_secure_connect_bundle, hscb, Bool.false_eq_true,
        if_false, hvalid2, if_neg hcache]
    push_neg at hcache
    refine ⟨?_, fun h => ?_⟩
    · rw [hout]
      constructor
      · intro _
        refine ⟨?_, hcache.2⟩
        cases hb : w.fileExists (scb_path_for w.tmpdir (effective_astra_args a)) with
        | true => rfl
        | false => exact absurd hb hcache.1
      · intro _
        exact ⟨rfl, rfl, rfl⟩
    · rcases h with h | h
      · exact absurd h hcache.1
      · exact absurd h (not_lt.mpr hcache.2)

theorem bundle_resolution_cache_freshness_witness :
    truthy sampleAstraArgs.scb = false ∧
    truthy sampleAstraArgs.endpoint = true ∧
    NetEvent.bundleGet "https://dl/1" ∈
      (get_or_download_secure_connect_bundle emptyCacheWorld sampleAstraArgs).netEvents ∧
    (get_or_download_secure_connect_bundle emptyCacheWorld sampleAstraArgs).wrotePaths =
      [scb_path_for emptyCacheWorld.tmpdir (effective_astra_args sampleAstraArgs)] := by
  have h := bundle_resolution_cache_freshness emptyCacheWorld sampleAstraArgs
    (by decide) (Or.inl (by decide))
  have h2 := (h.2 (Or.inl (by decide))).2 "https://dl/1" (by decide) (by decide)
  exact ⟨by decide, by decide, h2.1, h2.2.1⟩

/-- C4 counterexample input: an endpoint of the documented form together
with an explicitly supplied — but empty — `regionName` value. -/
def emptyRegionArgs : AstraArgs :=
  { token := some "T",
    endpoint := some "https://a1-b2-c3-d4-e5-us-east-1.apps.astra.datastax.com",
    regionName := some "" }

/-- C4 counterexample: the explicitly supplied `regionName` value `""` does
not take precedence over the parsed one — the parse replaces it with the
parsed region, because `astra_args.get('regionName') or regionName` keeps
a supplied value only when it is non-empty. -/
theorem endpoint_parse_empty_region_not_kept :
    emptyRegionArgs.regionName = some "" ∧
    (astra_args_after_endpoint_parse emptyRegionArgs).regionName = some "us-east-1" ∧
    (astra_args_after_endpoint_parse emptyRegionArgs).regionName ≠
      emptyRegionArgs.regionName := by decide

/-- C4 (amended): when the code's hostname-splitting of the endpoint yields
five datacenter segments followed by the region segments, the parse sets
`datacenterID` to the first five dash-joined segments and `regionName` to
the remaining dash-joined segments — except that a non-empty explicitly
supplied value takes precedence over the parsed one, while an empty or
absent supplied value is replaced by the parsed value. -/
theorem endpoint_parse_characterization (a : AstraArgs) (ds rs : List String)
    (hparts : endpointHostnameParts (a.endpoint.getD "") = ds ++ rs)
    (hlen : ds.length = 5) :
    (truthy a.datacenterID = false →
      (astra_args_after_endpoint_parse a).datacenterID = some (pyJoin "-" ds)) ∧
    (truthy a.datacenterID = true →
      (astra_args_after_endpoint_parse a).datacenterID = a.datacenterID) ∧
    (truthy a.regionName = false →
      (astra_args_after_endpoint_parse a).regionName = some (pyJoin "-" rs)) ∧
    (truthy a.regionName = true →
      (astra_args_after_endpoint_parse a).regionName = a.regionName) := by
  have htake : (ds ++ rs).take 5 = ds := by
    rw [← hlen]
    exact List.take_left ds rs
  have hdrop : (ds ++ rs).drop 5 = rs := by
    rw [← hlen]
    exact List.drop_left ds rs
  refine ⟨?_, ?_, ?_, ?_⟩ <;> intro h
  · cases hdc : a.datacenterID with
    | none => simp [astra_args_after_endpoint_parse, hparts, htake, pyOr, hdc]
    | some s =>
      have hs : s = "" := by
        rw [hdc] at h
        simpa [truthy] using h
      subst hs
      simp [astra_args_after_endpoint_parse, hparts, htake, pyOr, hdc]
  · cases hdc : a.datacenterID with
    | none =>
      rw [hdc] at h
      simp [truthy] at h
    | some s =>
      have hs : s ≠ "" := by
        rw [hdc] at h
        simpa [truthy] using h
      simp [astra_args_after_endpoint_parse, hparts, htake, pyOr, hdc, hs]
  · cases hrg : a.regionName with
    | none => simp [astra_args_after_endpoint_parse, hparts, hdrop, pyOr, hrg]
    | some s =>
      have hs : s = "" := by
        rw [hrg] at h
        simpa [truthy] using h
      subst hs
      simp [astra_args_after_endpoint_parse, hparts, hdrop, pyOr, hrg]
  · cases hrg : a.regionName with
    | none =>
      rw [hrg] at h
      simp [truthy] at h
    | some s =>
      have hs : s ≠ "" := by
        rw [hrg] at h
        simpa [truthy] using h
      simp [astra_args_after_endpoint_parse, hparts, hdrop, pyOr, hrg, hs]

/-- Sample configuration whose endpoint has the documented form and whose
`datacenterID` is also supplied explicitly (and non-empty). -/
def explicitDCArgs : AstraArgs :=
  { token := some "T",
    endpoint := some "https://a1-b2-c3-d4-e5-us-east-1.apps.astra.datastax.com",
    datacenterID := some "explicit-dc" }

theorem endpoint_parse_characterization_witness :
    endpointHostnameParts (explicitDCArgs.endpoint.getD "") =
      ["a1", "b2", "c3", "d4", "e5"] ++ ["us", "east", "1"] ∧
    (astra_args_after_endpoint_parse explicitDCArgs).datacenterID =
      some "explicit-dc" ∧
    (astra_args_after_endpoint_parse explicitDCArgs).regionName =
      some "us-east-1" := by
  have h := endpoint_parse_characterization explicitDCArgs
    ["a1", "b2", "c3", "d4", "e5"] ["us", "east", "1"] (by decide) (by decide)
  refine ⟨by decide, ?_, ?_⟩
  · exact (h.2.1 (by decide)).trans (by decide)
  · exact (h.2.2.1 (by decide)).trans (by decide)

/-- C8 counterexample: constructing a `CassandraConnector` from a Cloud
configuration with an endpoint mutates the caller's nested `astra`
dictionary (the parsed `datacenterID`/`regionName` are written into it) —
the caller-supplied configuration is not left unchanged. -/
theorem connector_init_mutates_cloud_subrecord :
    connection_args_after_init emptyCacheWorld
        (ConnectionArgs.mk (some sampleAstraArgs) []) ≠
      ConnectionArgs.mk (some sampleAstraArgs) [] := by decide

/-- Every field of `astra_args` other than `datacenterID` and `regionName`
is preserved by the endpoint-parsing step. -/
theorem endpoint_parse_preserves_other_fields (a : AstraArgs) :
    (astra_args_after_endpoint_parse a).token = a.token ∧
    (astra_args_after_endpoint_parse a).endpoint = a.endpoint ∧
    (astra_args_after_endpoint_parse a).scb = a.scb ∧
    (astra_args_after_endpoint_parse a).bundleUrlTemplate = a.bundleUrlTemplate :=
  ⟨rfl, rfl, rfl, rfl⟩

/-- C8 (amended): Connector construction leaves the caller's top-level
configuration record unchanged (the `**connection_args` dictionary is
fresh, so the `pop` calls and the reassignment never reach the caller),
and leaves every field of the nested cloud sub-record unchanged except
`datacenterID` and `regionName`: when no explicit bundle path is supplied
and an endpoint is present, bundle resolution writes the parsed values
into the caller's sub-record; in every other case the sub-record too is
unchanged. -/
theorem connector_init_config_frame (w : World) (ca : ConnectionArgs) :
    (connection_args_after_init w ca).direct = ca.direct ∧
    (connection_args_after_init w ca).astra.isSome = ca.astra.isSome ∧
    (∀ a a2, ca.astra = some a →
      (connection_args_after_init w ca).astra = some a2 →
      a2.token = a.token ∧ a2.endpoint = a.endpoint ∧ a2.scb = a.scb ∧
      a2.bundleUrlTemplate = a.bundleUrlTemplate ∧
      (truthy a.scb = true → a2 = a) ∧
      (truthy a.scb = false → truthy a.endpoint = false → a2 = a) ∧
      (truthy a.scb = false → truthy a.endpoint = true →
        a2 = astra_args_after_endpoint_parse a)) := by
  refine ⟨?_, ?_, ?_⟩
  · cases h : ca.astra <;> simp [connection_args_after_init, h]
  · cases h : ca.astra <;> simp [connection_args_after_init, h]
  · intro a a2 ha ha2
    have ha2eq : a2 = (get_or_download_secure_connect_bundle w a).astraArgsAfter := by
      rw [connection_args_after_init, ha] at ha2
      simpa using ha2.symm
    rw [bundle_resolution_astra_args_after] at ha2eq
    by_cases hscb : truthy a.scb = true
    · rw [if_pos hscb] at ha2eq
      subst ha2eq
      exact ⟨rfl, rfl, rfl, rfl, fun _ => rfl, fun hf _ => rfl, fun hf _ =>
        absurd hscb (by simp [hf])⟩
    · rw [if_neg hscb] at ha2eq
      by_cases hep : truthy a.endpoint = true
      · rw [effective_astra_args, if_pos hep] at ha2eq
        subst ha2eq
        have hp := endpoint_parse_preserves_other_fields a
        exact ⟨hp.1, hp.2.1, hp.2.2.1, hp.2.2.2, fun ht => absurd ht hscb,
          fun _ hf => absurd hep (by simp [hf]), fun _ _ => rfl⟩
      · have hepf : truthy a.endpoint = false := by
          cases hb : truthy a.endpoint with
          | true => exact absurd hb hep
          | false => rfl
        rw [effective_astra_args, if_neg hep] at ha2eq
        subst ha2eq
        exact ⟨rfl, rfl, rfl, rfl, fun ht => absurd ht hscb, fun _ _ => rfl,
          fun _ ht => absurd ht hep⟩

theorem connector_init_config_frame_witness :
    (ConnectionArgs.mk (some sampleAstraArgs) [("x", "y")]).astra =
      some sampleAstraArgs ∧
    (connection_args_after_init freshCacheWorld
        (ConnectionArgs.mk (some sampleAstraArgs) [("x", "y")])).astra =
      some (astra_args_after_endpoint_parse sampleAstraArgs) ∧
    (connection_args_after_init freshCacheWorld
        (ConnectionArgs.mk (some sampleAstraArgs) [("x", "y")])).direct =
      [("x", "y")] := by
  have h := connector_init_config_frame freshCacheWorld
    (ConnectionArgs.mk (some sampleAstraArgs) [("x", "y")])
  have h2 := h.2.2 sampleAstraArgs
    (astra_args_after_endpoint_parse sampleAstraArgs) rfl (by decide)
  exact ⟨rfl, by decide, h.1⟩

/-!
## The session accessor
-/

/-- C7 (code evaluation): because `session` is declared as a `@property`,
the attribute access `connector.session` always invokes the getter with
`new` at its default `False`, so it always returns the session created at
construction; the `new=True` branch of the getter body — which would
return a brand-new session from `self._cluster.connect()` — is unreachable
through the property interface. -/
theorem session_attribute_access_always_cached (c : ConnectorState)
    (freshSession : Session) :
    sessionAttributeAccess c freshSession = c.sessionAtInit ∧
    sessionGetterBody c freshSession true = freshSession :=
  ⟨rfl, rfl⟩
